import Mathlib

/-!
Shallow embedding of the Thronos BTC API Adapter (`main.py`): the upstream
failover fetcher `_fetch_from_upstreams`, the result cache
(`_cache`, `_cache_key`, `_get_cached_or_fetch`), the rate limiter
`_rate_limit`, and the `get_tip_height` endpoint's integer coercion.

Time values (Python `time.time()` floats) are modelled as rationals.
JSON numbers are modelled as integers (the adapter's numeric payloads are
block heights); this loses nothing for the properties proved here.
-/

namespace BtcAdapter

/-- JSON values, as produced by `resp.json()`.  Numbers are modelled as
integers. -/
inductive JsonValue where
  | null : JsonValue
  | bool (b : Bool) : JsonValue
  | num (n : ℤ) : JsonValue
  | str (s : String) : JsonValue
  | arr (xs : List JsonValue) : JsonValue
  | obj (fields : List (String × JsonValue)) : JsonValue


/-- The value `_fetch_from_upstreams` returns: `resp.json()` when the
content type declares JSON, `resp.text` otherwise (`main.py` lines 96-101). -/
inductive Payload where
  | json (j : JsonValue) : Payload
  | text (s : String) : Payload


/-- One upstream HTTP response as the transport collaborator delivers it:
status code, declared content type, raw text body, and the result of
attempting to parse the body as JSON (`none` models `resp.json()` raising). -/
structure Response where
  status_code : ℕ
  content_type : String
  text : String
  jsonResult : Option JsonValue


/-- Outcome of one outbound `client.get(url)`: either an exception
(connection error, timeout, ...) or a response. -/
inductive FetchOutcome where
  | error : FetchOutcome
  | response (r : Response) : FetchOutcome


/-- A transport assigns to every URL the outcome of a GET against it. -/
def Transport : Type := String → FetchOutcome

/-- Whether a character list occurs at the head of another. -/
def isPre : List Char → List Char → Bool
  | [], _ => true
  | _ :: _, [] => false
  | a :: as, b :: bs => a == b && isPre as bs

/-- Whether `needle` occurs as a contiguous sublist of `hay`. -/
def hasSub (needle : List Char) : List Char → Bool
  | [] => isPre needle []
  | c :: t => isPre needle (c :: t) || hasSub needle t

/-- Python's `"application/json" in content_type` substring test
(`main.py` line 98). -/
def ctIndicatesJson (ct : String) : Bool :=
  hasSub ("application/json").data ct.data

/-- Result of a whole failover fetch: the value or HTTP error status,
the URLs contacted (each contacted URL is preceded by one
`_rate_limit()` acquisition), and the URLs whose attempt raised an
exception and was logged as a warning (`main.py` lines 102-103;
a non-200 status is skipped silently, with no warning). -/
structure FetchResult where
  result : Except ℕ Payload
  contacted : List String
  warnings : List String


/-- `_fetch_from_upstreams` (`main.py` lines 74-105): try each upstream in
order; on status 200 return `resp.json()` if the content type declares JSON
(a parse failure is an exception caught by the `except` block, so the loop
continues) and `resp.text` otherwise; on any exception or non-200 status
continue; raise `HTTPException(502)` after the list is exhausted. -/
def fetchFromUpstreams (transport : Transport) (upstreams : List String)
    (path : String) : FetchResult :=
  match upstreams with
  | [] => ⟨.error 502, [], []⟩
  | base :: rest =>
    let url := base ++ path
    match transport url with
    | .error =>
        let fr := fetchFromUpstreams transport rest path
        ⟨fr.result, url :: fr.contacted, url :: fr.warnings⟩
    | .response r =>
      if r.status_code = 200 then
        if ctIndicatesJson r.content_type then
          match r.jsonResult with
          | some j => ⟨.ok (.json j), [url], []⟩
          | none =>
              let fr := fetchFromUpstreams transport rest path
              ⟨fr.result, url :: fr.contacted, url :: fr.warnings⟩
        else ⟨.ok (.text r.text), [url], []⟩
      else
        let fr := fetchFromUpstreams transport rest path
        ⟨fr.result, url :: fr.contacted, fr.warnings⟩

/-- Whether an outcome is a response with status 200. -/
def respondsWith200 (o : FetchOutcome) : Bool :=
  match o with
  | .error => false
  | .response r => r.status_code == 200

/-- Whether one upstream attempt fails, advancing the loop: an exception,
a non-200 status, or a 200 whose declared-JSON body fails to parse. -/
def attemptFails (o : FetchOutcome) : Bool :=
  match o with
  | .error => true
  | .response r =>
      !(r.status_code == 200 &&
        (!ctIndicatesJson r.content_type || r.jsonResult.isSome))

/-- The payload a 200 response yields: parsed JSON when the content type
declares JSON (`none` when parsing fails), the raw text otherwise. -/
def payloadOf (r : Response) : Option Payload :=
  if ctIndicatesJson r.content_type then r.jsonResult.map Payload.json
  else some (.text r.text)

/-- The cache key tuple `(name, args, tuple(sorted(kwargs.items())))` built
by `_cache_key` (`main.py` lines 108-109).  Positional and named argument
values are strings, as in every call site of the adapter. -/
structure CacheKey where
  name : String
  args : List String
  kwargs : List (String × String)
deriving DecidableEq

/-- Ordering used by Python's `sorted` on `(key, value)` string pairs:
lexicographic on the pair. -/
def kwLe (a b : String × String) : Bool :=
  decide (a.1 < b.1) || (a.1 == b.1 && decide (a.2 ≤ b.2))

/-- Insert one pair into an already sorted kwargs list. -/
def insortKw (x : String × String) : List (String × String) → List (String × String)
  | [] => [x]
  | y :: ys => if kwLe x y then x :: y :: ys else y :: insortKw x ys

/-- Python's `sorted(kwargs.items())`: the items of the keyword mapping in
canonical sorted order. -/
def sortKwargs (kw : List (String × String)) : List (String × String) :=
  kw.foldr insortKw []

/-- `_cache_key(name, *args, **kwargs)` (`main.py` lines 108-109). -/
def cacheKey (name : String) (args : List String)
    (kwargs : List (String × String)) : CacheKey :=
  ⟨name, args, sortKwargs kwargs⟩

/-- The in-memory `_cache` dict (`main.py` line 54), modelled as an
association list from keys to `(result, timestamp)` pairs with at most one
entry per key. -/
def Cache : Type := List (CacheKey × Payload × ℚ)

/-- Python `_cache[key]` / `key in _cache`: the entry stored for `k`. -/
def cacheLookup (c : Cache) (k : CacheKey) : Option (Payload × ℚ) :=
  match c with
  | [] => none
  | (k', v, t) :: rest => if k' = k then some (v, t) else cacheLookup rest k

/-- Python `_cache[key] = (result, now)`: write or overwrite the entry. -/
def cacheStore (c : Cache) (k : CacheKey) (v : Payload) (t : ℚ) : Cache :=
  match c with
  | [] => [(k, v, t)]
  | (k', v', t') :: rest =>
      if k' = k then (k, v, t) :: rest else (k', v', t') :: cacheStore rest k v t

/-- The freshness-checked lookup performed inline by `_get_cached_or_fetch`
(`main.py` lines 122-125): the cached value iff an entry exists and
`now - ts < ttl`; a stale entry is treated as absent and not removed. -/
def cacheLookupFresh (ttl : ℚ) (c : Cache) (k : CacheKey) (now : ℚ) :
    Option Payload :=
  match cacheLookup c k with
  | some (v, ts) => if now - ts < ttl then some v else none
  | none => none

/-- Outcome of one `_get_cached_or_fetch` call: the returned value or the
propagated `HTTPException` status, the cache state afterwards, how many
times `path_func` was invoked, and the upstream URLs contacted (each of
which consumed one `_rate_limit()` acquisition). -/
structure ResolveOutcome where
  result : Except ℕ Payload
  cache : Cache
  fetchCalls : ℕ
  contacted : List String

/-- The miss path of `_get_cached_or_fetch` (`main.py` lines 127-129):
invoke `path_func` once; on success store `(result, now)` — `now` being the
clock reading taken at line 120, before the fetch — and return the result;
on `HTTPException` propagate it, leaving the cache untouched. -/
def resolveMiss (key : CacheKey) (now : ℚ) (cache : Cache)
    (fr : FetchResult) : ResolveOutcome :=
  match fr.result with
  | .ok v => ⟨.ok v, cacheStore cache key v now, 1, fr.contacted⟩
  | .error e => ⟨.error e, cache, 1, fr.contacted⟩

/-- `_get_cached_or_fetch` (`main.py` lines 112-129), given the key already
built, the single `time.time()` reading `now` of line 120, and the result
`fr` that the `path_func` fetch closure would produce if invoked. -/
def getCachedOrFetch (ttl : ℚ) (key : CacheKey) (now : ℚ) (cache : Cache)
    (fr : FetchResult) : ResolveOutcome :=
  match cacheLookup cache key with
  | some (v, ts) =>
      if now - ts < ttl then ⟨.ok v, cache, 0, []⟩
      else resolveMiss key now cache fr
  | none => resolveMiss key now cache fr

/-- `_get_cached_or_fetch` with wall-clock time made explicit: `now` is the
one `time.time()` reading of line 120, taken before the fetch; in a run
where the `path_func` call takes `fetchDur` seconds, the fetch completes at
`now + fetchDur`, returned as the second component.  The code never reads
the clock again before storing, so the stored timestamp is `now`. -/
def getCachedOrFetchTimed (ttl : ℚ) (key : CacheKey) (now : ℚ)
    (cache : Cache) (fr : FetchResult) (fetchDur : ℚ) : ResolveOutcome × ℚ :=
  (getCachedOrFetch ttl key now cache fr, now + fetchDur)

/-- `_rate_limit` (`main.py` lines 60-71) as a step on the state
`_last_request_time`, executed under `_rate_lock`: given the configured
rate `R`, the stored last-call time `last` and the `time.time()` reading
`now` taken after the lock is acquired, returns
`(completion time, new last-call time)`.  If `R <= 0` the gate is disabled
and returns at once without touching the state; otherwise the caller
sleeps `max 0 (1/R - (now - last))` seconds and the post-sleep `time.time()`
reading (idealized as exactly `now + wait`) becomes the new state. -/
def rateAcquire (R last now : ℚ) : ℚ × ℚ :=
  if R ≤ 0 then (now, last)
  else
    let minInterval := 1 / R
    let waitTime := minInterval - (now - last)
    if 0 < waitTime then (now + waitTime, now + waitTime) else (now, now)

/-- Decimal digit run accumulator for Python `int(str)`. -/
def parseDigits : List Char → ℕ → Option ℕ
  | [], acc => some acc
  | c :: cs, acc =>
      if c.isDigit then parseDigits cs (10 * acc + (c.toNat - 48)) else none

/-- Python `int()` applied to a string: optional surrounding whitespace, an
optional sign, then a non-empty run of decimal digits; anything else raises
`ValueError` (`none`).  Digit-group underscores are not modelled. -/
def pyIntOfChars (cs : List Char) : Option ℤ :=
  let t :=
    ((cs.dropWhile (fun c => c.isWhitespace)).reverse.dropWhile
      (fun c => c.isWhitespace)).reverse
  match t with
  | [] => none
  | '+' :: rest =>
      if rest = [] then none else (parseDigits rest 0).map (fun n => (n : ℤ))
  | '-' :: rest =>
      if rest = [] then none else (parseDigits rest 0).map (fun n => -(n : ℤ))
  | rest => (parseDigits rest 0).map (fun n => (n : ℤ))

/-- Python `int(data)` on a fetched payload (`main.py` line 146): strings
parse as integer literals, JSON numbers and booleans coerce, anything else
(`None`, lists, objects) raises `TypeError`/`ValueError`, modelled as
`none`.  Both exception types are caught by line 147. -/
def pyInt : Payload → Option ℤ
  | .text s => pyIntOfChars s.data
  | .json j =>
    match j with
    | .num n => some n
    | .bool b => some (if b then 1 else 0)
    | .str s => pyIntOfChars s.data
    | _ => none

/-- What the tip-height endpoint returns: a coerced integer or the payload
in its original form (`Union[int, str]` at `main.py` line 139). -/
inductive TipResult where
  | int (n : ℤ) : TipResult
  | raw (p : Payload) : TipResult

/-- The coercion step of `get_tip_height` (`main.py` lines 144-148): try
`int(data)`; on `ValueError`/`TypeError` return `data` unchanged. -/
def get_tip_height (data : Payload) : TipResult :=
  match pyInt data with
  | some n => .int n
  | none => .raw data

/-- Storing a key and looking the same key up yields the stored pair. -/
theorem cacheLookup_store_self (c : Cache) (k : CacheKey) (v : Payload) (t : ℚ) :
    cacheLookup (cacheStore c k v t) k = some (v, t) := by
  induction c with
  | nil => simp [cacheStore, cacheLookup]
  | cons hd tl ih =>
    obtain ⟨k', v', t'⟩ := hd
    by_cases h : k' = k
    · simp [cacheStore, cacheLookup, h]
    · simp [cacheStore, cacheLookup, h, ih]

/-- Storing one key leaves the lookup of any other key unchanged. -/
theorem cacheLookup_store_other (c : Cache) (k k2 : CacheKey) (v : Payload)
    (t : ℚ) (h : k2 ≠ k) :
    cacheLookup (cacheStore c k v t) k2 = cacheLookup c k2 := by
  induction c with
  | nil =>
    simp only [cacheStore, cacheLookup]
    rw [if_neg (Ne.symm h)]
  | cons hd tl ih =>
    obtain ⟨k', v', t'⟩ := hd
    by_cases hk : k' = k
    · subst hk
      simp only [cacheStore, if_pos rfl, cacheLookup]
      rw [if_neg (Ne.symm h), if_neg (Ne.symm h)]
    · simp [cacheStore, cacheLookup, hk, ih]

/-- On a fresh cache hit, `_get_cached_or_fetch` returns the cached value,
leaves the cache unchanged, invokes `path_func` zero times and contacts no
upstream. -/
theorem getCachedOrFetch_hit (ttl : ℚ) (key : CacheKey) (now : ℚ) (c : Cache)
    (fr : FetchResult) (v : Payload) (ts : ℚ)
    (hl : cacheLookup c key = some (v, ts)) (hf : now - ts < ttl) :
    getCachedOrFetch ttl key now c fr = ⟨.ok v, c, 0, []⟩ := by
  simp [getCachedOrFetch, hl, hf]

/-- When the freshness-checked lookup is empty (no entry, or a stale one),
`_get_cached_or_fetch` takes the miss path. -/
theorem getCachedOrFetch_miss (ttl : ℚ) (key : CacheKey) (now : ℚ) (c : Cache)
    (fr : FetchResult) (hm : cacheLookupFresh ttl c key now = none) :
    getCachedOrFetch ttl key now c fr = resolveMiss key now c fr := by
  unfold cacheLookupFresh at hm
  cases hl : cacheLookup c key with
  | none => simp [getCachedOrFetch, hl]
  | some p =>
    obtain ⟨v, ts⟩ := p
    rw [hl] at hm
    by_cases hf : now - ts < ttl
    · simp [hf] at hm
    · simp [getCachedOrFetch, hl, hf]

/-- A rate-gate acquisition starting from last-call time `t1` completes at
least `1/R` after `t1` when the rate `R` is positive. -/
theorem rateAcquire_gap (R t1 now2 : ℚ) (hR : 0 < R) :
    1 / R ≤ (rateAcquire R t1 now2).1 - t1 := by
  have hR' : ¬ R ≤ 0 := not_le.mpr hR
  simp only [rateAcquire, hR', if_false]
  by_cases hw : 0 < 1 / R - (now2 - t1)
  · simp only [hw, if_true]
    linarith
  · simp only [hw, if_false]
    push_neg at hw
    linarith

/-- For a positive rate, the new last-call time equals the completion time
(line 71 runs right before `_rate_limit` returns). -/
theorem rateAcquire_state_eq_completion (R last now : ℚ) (hR : 0 < R) :
    (rateAcquire R last now).2 = (rateAcquire R last now).1 := by
  have hR' : ¬ R ≤ 0 := not_le.mpr hR
  simp only [rateAcquire, hR', if_false]
  split_ifs <;> rfl

/-- Claim C1: for every non-empty upstream list and every path, the fetch
tries the upstream base URLs in list order; where every upstream before
position `i` fails to respond with status 200 and the upstream at `i`
responds 200, the fetch returns that upstream's payload — parsed JSON when
the declared content type indicates JSON, the raw text body otherwise —
and exactly the first `i + 1` upstreams are contacted, none after the 200. -/
theorem fetch_first_200 (transport : Transport) (pre post : List String)
    (s path : String) (r : Response) (p : Payload)
    (hfail : ∀ u ∈ pre, respondsWith200 (transport (u ++ path)) = false)
    (hs : transport (s ++ path) = .response r)
    (h200 : r.status_code = 200)
    (hp : payloadOf r = some p) :
    (fetchFromUpstreams transport (pre ++ s :: post) path).result = .ok p ∧
    (fetchFromUpstreams transport (pre ++ s :: post) path).contacted =
      (pre ++ [s]).map (fun u => u ++ path) := by
  induction pre with
  | nil =>
    cases hct : ctIndicatesJson r.content_type with
    | true =>
      simp only [payloadOf, hct, if_true] at hp
      cases hj : r.jsonResult with
      | none => rw [hj] at hp; simp at hp
      | some j =>
        rw [hj] at hp
        obtain rfl : Payload.json j = p := Option.some.inj hp
        simp [fetchFromUpstreams, hs, h200, hct, hj]
    | false =>
      simp only [payloadOf, hct, Bool.false_eq_true, if_false] at hp
      obtain rfl : Payload.text r.text = p := Option.some.inj hp
      simp [fetchFromUpstreams, hs, h200, hct]
  | cons a as ih =>
    have ha := hfail a (List.mem_cons_self a as)
    have ih' := ih fun u hu => hfail u (List.mem_cons_of_mem a hu)
    cases hta : transport (a ++ path) with
    | error =>
      simp only [List.cons_append, fetchFromUpstreams, hta]
      exact ⟨ih'.1, by simp [ih'.2]⟩
    | response r2 =>
      have h200n : ¬ r2.status_code = 200 := by
        intro hEq
        rw [hta] at ha
        simp [respondsWith200, hEq] at ha
      simp only [List.cons_append, fetchFromUpstreams, hta, h200n, if_false]
      exact ⟨ih'.1, by simp [ih'.2]⟩

/-- Witness for `fetch_first_200`: upstreams A (exception), B (404),
C (200 with JSON), D (never reached); the fetch returns C's parsed JSON
and contacts exactly A, B, C. -/
theorem fetch_first_200_witness :
    (fetchFromUpstreams
        (fun url => if url = ("A/p") then .error
          else if url = ("B/p") then .response ⟨404, (""), ("nf"), none⟩
          else .response ⟨200, ("application/json"), (""), some (.num 800000)⟩)
        (["A", "B"] ++ "C" :: ["D"]) ("/p")).result = .ok (.json (.num 800000)) ∧
    (fetchFromUpstreams
        (fun url => if url = ("A/p") then .error
          else if url = ("B/p") then .response ⟨404, (""), ("nf"), none⟩
          else .response ⟨200, ("application/json"), (""), some (.num 800000)⟩)
        (["A", "B"] ++ "C" :: ["D"]) ("/p")).contacted =
      (["A", "B"] ++ ["C"]).map (fun u => u ++ ("/p")) :=
  fetch_first_200
    (fun url => if url = ("A/p") then .error
      else if url = ("B/p") then .response ⟨404, (""), ("nf"), none⟩
      else .response ⟨200, ("application/json"), (""), some (.num 800000)⟩)
    ["A", "B"] ["D"] ("C") ("/p")
    ⟨200, ("application/json"), (""), some (.num 800000)⟩ (.json (.num 800000))
    (by decide) rfl rfl rfl

/-- Claim C2: when every configured upstream attempt fails, the fetch
raises the single exhausted condition as HTTP status 502, and with an
empty upstream list the loop body never executes — no upstream contacted,
no warning logged — and the very first call fails with that same 502; the
result is the error alone, never a partial or merged payload. -/
theorem fetch_all_fail_502 (transport : Transport) (upstreams : List String)
    (path : String) :
    ((∀ u ∈ upstreams, attemptFails (transport (u ++ path)) = true) →
       (fetchFromUpstreams transport upstreams path).result = .error 502) ∧
    fetchFromUpstreams transport [] path = ⟨.error 502, [], []⟩ := by
  refine ⟨?_, rfl⟩
  induction upstreams with
  | nil => intro _; rfl
  | cons a as ih =>
    intro h
    have ha := h a (List.mem_cons_self a as)
    have ih' := ih fun u hu => h u (List.mem_cons_of_mem a hu)
    cases hta : transport (a ++ path) with
    | error => simp [fetchFromUpstreams, hta, ih']
    | response r =>
      rw [hta] at ha
      by_cases h200 : r.status_code = 200
      · have hrest : ctIndicatesJson r.content_type = true ∧ r.jsonResult = none := by
          simp only [attemptFails, h200] at ha
          constructor
          · by_contra hct
            simp [eq_false_of_ne_true (fun x => hct x)] at ha
          · cases hj : r.jsonResult with
            | none => rfl
            | some j => rw [hj] at ha; simp at ha
        simp [fetchFromUpstreams, hta, h200, hrest.1, hrest.2, ih']
      · simp [fetchFromUpstreams, hta, h200, ih']

/-- Witness for `fetch_all_fail_502`: a transport on which every GET
raises; two upstreams yield 502, and the empty list yields 502 at once. -/
theorem fetch_all_fail_502_witness :
    (fetchFromUpstreams (fun _ => FetchOutcome.error) ["A", "B"] ("/x")).result =
      .error 502 ∧
    fetchFromUpstreams (fun _ => FetchOutcome.error) [] ("/x") =
      ⟨.error 502, [], []⟩ :=
  ⟨(fetch_all_fail_502 (fun _ => FetchOutcome.error) ["A", "B"] ("/x")).1 (by decide),
   (fetch_all_fail_502 (fun _ => FetchOutcome.error) ["A", "B"] ("/x")).2⟩

/-- Claim C10: an upstream returning status 200 with a content type
declaring JSON but an unparseable body is treated as failed: the result is
whatever the remaining upstreams produce, the failed URL is recorded as
contacted, a warning is logged for it, and no parse error propagates. -/
theorem fetch_json_parse_failure_skips (transport : Transport) (base : String)
    (rest : List String) (path : String) (r : Response)
    (ht : transport (base ++ path) = .response r) (h200 : r.status_code = 200)
    (hct : ctIndicatesJson r.content_type = true) (hpj : r.jsonResult = none) :
    fetchFromUpstreams transport (base :: rest) path =
      ⟨(fetchFromUpstreams transport rest path).result,
       (base ++ path) :: (fetchFromUpstreams transport rest path).contacted,
       (base ++ path) :: (fetchFromUpstreams transport rest path).warnings⟩ := by
  simp [fetchFromUpstreams, ht, h200, hct, hpj]

/-- Witness for `fetch_json_parse_failure_skips`: every upstream answers
200 `application/json` with an unparseable body; the head upstream is
skipped with a warning and resolution continues with the tail. -/
theorem fetch_json_parse_failure_skips_witness :
    fetchFromUpstreams
        (fun _ => .response ⟨200, ("application/json"), ("not json"), none⟩)
        ("A" :: ["B"]) ("/p") =
      ⟨(fetchFromUpstreams
          (fun _ => .response ⟨200, ("application/json"), ("not json"), none⟩)
          ["B"] ("/p")).result,
       ("A" ++ "/p") ::
         (fetchFromUpstreams
           (fun _ => .response ⟨200, ("application/json"), ("not json"), none⟩)
           ["B"] ("/p")).contacted,
       ("A" ++ "/p") ::
         (fetchFromUpstreams
           (fun _ => .response ⟨200, ("application/json"), ("not json"), none⟩)
           ["B"] ("/p")).warnings⟩ :=
  fetch_json_parse_failure_skips
    (fun _ => .response ⟨200, ("application/json"), ("not json"), none⟩)
    ("A") ["B"] ("/p") ⟨200, ("application/json"), ("not json"), none⟩
    rfl rfl rfl rfl

/-- Claim C3: after `store(s, v, t0)`, the freshness-checked lookup of `s`
at time `t` returns `v` when `t - t0 < TTL` and absent when
`t - t0 >= TTL`; the stale-but-present entry is not removed — the raw
lookup still finds `(v, t0)`. -/
theorem cache_store_lookup_ttl (ttl : ℚ) (c : Cache) (s : CacheKey)
    (v : Payload) (t0 t : ℚ) :
    (t - t0 < ttl → cacheLookupFresh ttl (cacheStore c s v t0) s t = some v) ∧
    (ttl ≤ t - t0 → cacheLookupFresh ttl (cacheStore c s v t0) s t = none) ∧
    cacheLookup (cacheStore c s v t0) s = some (v, t0) := by
  refine ⟨?_, ?_, cacheLookup_store_self c s v t0⟩
  · intro h
    simp [cacheLookupFresh, cacheLookup_store_self, h]
  · intro h
    simp [cacheLookupFresh, cacheLookup_store_self, not_lt.mpr h]

/-- Witness for `cache_store_lookup_ttl` with TTL 30: a value stored at
time 0 is returned at time 10 and absent at time 31. -/
theorem cache_store_lookup_ttl_witness :
    cacheLookupFresh 30
        (cacheStore [] ⟨("tip_height"), [], []⟩ (.text ("800000")) 0)
        ⟨("tip_height"), [], []⟩ 10 = some (.text ("800000")) ∧
    cacheLookupFresh 30
        (cacheStore [] ⟨("tip_height"), [], []⟩ (.text ("800000")) 0)
        ⟨("tip_height"), [], []⟩ 31 = none :=
  ⟨(cache_store_lookup_ttl 30 [] ⟨("tip_height"), [], []⟩ (.text ("800000")) 0 10).1
      (by norm_num),
   (cache_store_lookup_ttl 30 [] ⟨("tip_height"), [], []⟩ (.text ("800000")) 0 31).2.1
      (by norm_num)⟩

/-- Claim C4: any resolution that ends in the exhausted-upstreams failure
leaves the cache exactly as it was: no entry is written for the requested
signature and any prior (possibly stale) entry is untouched. -/
theorem resolve_failure_leaves_cache (ttl : ℚ) (key : CacheKey) (now : ℚ)
    (cache : Cache) (fr : FetchResult) (e : ℕ)
    (h : (getCachedOrFetch ttl key now cache fr).result = .error e) :
    (getCachedOrFetch ttl key now cache fr).cache = cache := by
  cases hl : cacheLookup cache key with
  | none =>
    simp only [getCachedOrFetch, hl, resolveMiss] at h ⊢
    cases hr : fr.result with
    | ok v => simp [hr] at h
    | error e2 => simp [hr]
  | some p =>
    obtain ⟨v, ts⟩ := p
    by_cases hf : now - ts < ttl
    · simp only [getCachedOrFetch, hl, hf, if_true] at h
      simp at h
    · simp only [getCachedOrFetch, hl, hf, if_false, resolveMiss] at h ⊢
      cases hr : fr.result with
      | ok v2 => simp [hr] at h
      | error e2 => simp [hr]

/-- Witness for `resolve_failure_leaves_cache`: a failed resolution
against an empty cache leaves the cache empty. -/
theorem resolve_failure_leaves_cache_witness :
    (getCachedOrFetch 30 ⟨("tx"), [("t1")], []⟩ 0 []
        ⟨.error 502, [("u1")], [("u1")]⟩).cache = [] :=
  resolve_failure_leaves_cache 30 ⟨("tx"), [("t1")], []⟩ 0 []
    ⟨.error 502, [("u1")], [("u1")]⟩ 502 rfl

/-- Claim C5: a resolution finding a fresh cache entry returns the cached
value with zero `path_func` invocations and zero upstream contacts (hence
zero rate-gate acquisitions); consequently two identical resolutions
within TTL perform exactly one fetch between them and the second returns
the identical cached value. -/
theorem resolve_hit_no_fetch (ttl : ℚ) (key : CacheKey) :
    (∀ (c : Cache) (v : Payload) (ts now : ℚ) (fr : FetchResult),
        cacheLookup c key = some (v, ts) → now - ts < ttl →
        getCachedOrFetch ttl key now c fr = ⟨.ok v, c, 0, []⟩) ∧
    (∀ (c : Cache) (t1 t2 : ℚ) (fr1 fr2 : FetchResult) (v : Payload),
        cacheLookupFresh ttl c key t1 = none → fr1.result = .ok v →
        t2 - t1 < ttl →
        (getCachedOrFetch ttl key t1 c fr1).fetchCalls = 1 ∧
        getCachedOrFetch ttl key t2 (getCachedOrFetch ttl key t1 c fr1).cache fr2 =
          ⟨.ok v, (getCachedOrFetch ttl key t1 c fr1).cache, 0, []⟩) := by
  constructor
  · intro c v ts now fr hl hf
    exact getCachedOrFetch_hit ttl key now c fr v ts hl hf
  · intro c t1 t2 fr1 fr2 v hm hok hf
    have h1 : getCachedOrFetch ttl key t1 c fr1 =
        ⟨.ok v, cacheStore c key v t1, 1, fr1.contacted⟩ := by
      rw [getCachedOrFetch_miss ttl key t1 c fr1 hm]
      unfold resolveMiss
      rw [hok]
    rw [h1]
    refine ⟨rfl, ?_⟩
    exact getCachedOrFetch_hit ttl key t2 (cacheStore c key v t1) fr2 v t1
      (cacheLookup_store_self c key v t1) hf

/-- Witness for `resolve_hit_no_fetch`: a fresh `tip_height` entry is
returned with no fetch, and a miss at time 0 followed by an identical
resolution at time 10 (TTL 30) totals exactly one fetch. -/
theorem resolve_hit_no_fetch_witness :
    getCachedOrFetch 30 ⟨("tip_height"), [], []⟩ 10
        [(⟨("tip_height"), [], []⟩, Payload.text ("800000"), 0)]
        ⟨.error 502, [], []⟩ =
      ⟨.ok (.text ("800000")),
       [(⟨("tip_height"), [], []⟩, Payload.text ("800000"), 0)], 0, []⟩ ∧
    ((getCachedOrFetch 30 ⟨("tip_height"), [], []⟩ 0 []
        ⟨.ok (.text ("800000")), [("u")], []⟩).fetchCalls = 1 ∧
     getCachedOrFetch 30 ⟨("tip_height"), [], []⟩ 10
        (getCachedOrFetch 30 ⟨("tip_height"), [], []⟩ 0 []
          ⟨.ok (.text ("800000")), [("u")], []⟩).cache ⟨.error 502, [], []⟩ =
      ⟨.ok (.text ("800000")),
       (getCachedOrFetch 30 ⟨("tip_height"), [], []⟩ 0 []
         ⟨.ok (.text ("800000")), [("u")], []⟩).cache, 0, []⟩) :=
  ⟨(resolve_hit_no_fetch 30 ⟨("tip_height"), [], []⟩).1
      [(⟨("tip_height"), [], []⟩, Payload.text ("800000"), 0)]
      (.text ("800000")) 0 10 ⟨.error 502, [], []⟩ rfl (by norm_num),
   (resolve_hit_no_fetch 30 ⟨("tip_height"), [], []⟩).2
      [] 0 10 ⟨.ok (.text ("800000")), [("u")], []⟩ ⟨.error 502, [], []⟩
      (.text ("800000")) rfl rfl (by norm_num)⟩

/-- Claim C6, counterexample to the claim as stated: in a run starting at
time 0 whose fetch takes 1 second (completing at time 1), the stored
entry's timestamp is 0, so the timestamp IS earlier than the moment the
fetch completed — `time.time()` is read at line 120 before the fetch and
stored unchanged at line 128. -/
theorem resolve_timestamp_counterexample :
    cacheLookup
        (getCachedOrFetchTimed 30 ⟨("tip_height"), [], []⟩ 0 []
          ⟨.ok (.text ("800000")), [("u")], []⟩ 1).1.cache
        ⟨("tip_height"), [], []⟩ = some (.text ("800000"), 0) ∧
    (getCachedOrFetchTimed 30 ⟨("tip_height"), [], []⟩ 0 []
        ⟨.ok (.text ("800000")), [("u")], []⟩ 1).2 = 1 ∧
    ¬ ((1 : ℚ) ≤ 0) := by
  refine ⟨rfl, by norm_num [getCachedOrFetchTimed], by norm_num⟩

/-- Claim C6 as amended: on a miss or stale hit whose fetch succeeds, the
engine stores the fetched result paired with the timestamp read at the
start of the resolution, before the fetch — a timestamp never later than
(and, if the fetch takes time, earlier than) the fetch-completion moment. -/
theorem resolve_stores_start_timestamp (ttl : ℚ) (key : CacheKey) (now : ℚ)
    (cache : Cache) (fr : FetchResult) (fetchDur : ℚ) (v : Payload)
    (hmiss : cacheLookupFresh ttl cache key now = none)
    (hok : fr.result = .ok v) (hdur : 0 ≤ fetchDur) :
    cacheLookup (getCachedOrFetchTimed ttl key now cache fr fetchDur).1.cache key =
      some (v, now) ∧
    now ≤ (getCachedOrFetchTimed ttl key now cache fr fetchDur).2 := by
  unfold getCachedOrFetchTimed
  constructor
  · rw [getCachedOrFetch_miss ttl key now cache fr hmiss]
    unfold resolveMiss
    rw [hok]
    exact cacheLookup_store_self cache key v now
  · simpa using hdur

/-- Witness for `resolve_stores_start_timestamp`: a miss at time 0 with a
1-second fetch stores timestamp 0. -/
theorem resolve_stores_start_timestamp_witness :
    cacheLookup
        (getCachedOrFetchTimed 30 ⟨("tip_height"), [], []⟩ 0 []
          ⟨.ok (.text ("800000")), [("u")], []⟩ 1).1.cache
        ⟨("tip_height"), [], []⟩ = some (.text ("800000"), 0) ∧
    (0 : ℚ) ≤ (getCachedOrFetchTimed 30 ⟨("tip_height"), [], []⟩ 0 []
        ⟨.ok (.text ("800000")), [("u")], []⟩ 1).2 :=
  resolve_stores_start_timestamp 30 ⟨("tip_height"), [], []⟩ 0 []
    ⟨.ok (.text ("800000")), [("u")], []⟩ 1 (.text ("800000")) rfl rfl (by norm_num)

/-- Claim C7: with rate `R <= 0` every acquisition returns immediately at
the current instant with the state untouched (and never fails, being
total); the last-call state never decreases; and for `R > 0` two
consecutive acquisitions — the second starting no earlier than the first
completed, as the serializing lock guarantees — complete at least `1/R`
seconds apart.  The lock discipline of lines 65-71 is embedded as the
sequential threading of the `last` state through `rateAcquire`. -/
theorem rate_gate_spec (R last now : ℚ) :
    (R ≤ 0 → rateAcquire R last now = (now, last)) ∧
    (last ≤ now → last ≤ (rateAcquire R last now).2) ∧
    (0 < R → ∀ now2, (rateAcquire R last now).1 ≤ now2 →
       1 / R ≤ (rateAcquire R (rateAcquire R last now).2 now2).1 -
         (rateAcquire R last now).1) := by
  refine ⟨?_, ?_, ?_⟩
  · intro h
    simp [rateAcquire, h]
  · intro h
    by_cases hR : R ≤ 0
    · simp [rateAcquire, hR]
    · have hpos : 0 < R := not_le.mp hR
      have hinv : 0 < 1 / R := by positivity
      simp only [rateAcquire, hR, if_false]
      split_ifs with hw
      · linarith
      · simpa using h
  · intro hR now2 h2
    rw [rateAcquire_state_eq_completion R last now hR]
    exact rateAcquire_gap R (rateAcquire R last now).1 now2 hR

/-- Witness for `rate_gate_spec`: a disabled gate (`R = 0`) passes through
instantly, and with `R = 1` two back-to-back acquisitions complete at
least 1 second apart. -/
theorem rate_gate_spec_witness :
    rateAcquire 0 5 9 = (9, 5) ∧
    (0 : ℚ) ≤ (rateAcquire 1 0 0).2 ∧
    1 / 1 ≤ (rateAcquire 1 (rateAcquire 1 0 0).2 1).1 - (rateAcquire 1 0 0).1 :=
  ⟨(rate_gate_spec 0 5 9).1 (by norm_num),
   (rate_gate_spec 1 0 0).2.1 (by norm_num),
   (rate_gate_spec 1 0 0).2.2 (by norm_num) 1 (by norm_num [rateAcquire])⟩

/-- Claim C9: two cache keys built by `_cache_key` are equal iff the
operation name, the positional argument sequence, and the named arguments
normalized into sorted order are all equal; and storing under one key
leaves the lookup of any distinct key unchanged. -/
theorem cacheKey_eq_iff_independent (n1 n2 : String) (a1 a2 : List String)
    (k1 k2 : List (String × String)) :
    (cacheKey n1 a1 k1 = cacheKey n2 a2 k2 ↔
       n1 = n2 ∧ a1 = a2 ∧ sortKwargs k1 = sortKwargs k2) ∧
    (∀ (s1 s2 : CacheKey) (c : Cache) (v : Payload) (t : ℚ), s1 ≠ s2 →
       cacheLookup (cacheStore c s1 v t) s2 = cacheLookup c s2) := by
  constructor
  · simp [cacheKey, CacheKey.mk.injEq]
  · intro s1 s2 c v t h
    exact cacheLookup_store_other c s1 s2 v t (Ne.symm h)

/-- Witness for `cacheKey_eq_iff_independent`: storing a block hash does
not affect the lookup of a transaction key. -/
theorem cacheKey_eq_iff_independent_witness :
    cacheLookup (cacheStore [] ⟨("block"), [("abc")], []⟩ (.text ("h1")) 0)
        ⟨("tx"), [("t1")], []⟩ =
      cacheLookup [] ⟨("tx"), [("t1")], []⟩ :=
  (cacheKey_eq_iff_independent ("block") ("tx") [] [] [] []).2
    ⟨("block"), [("abc")], []⟩ ⟨("tx"), [("t1")], []⟩ [] (.text ("h1")) 0 (by decide)

/-- Claim C8: the tip-height endpoint returns the payload coerced to an
integer whenever Python's `int()` coercion succeeds (the text `"800000"`
yields the integer `800000`) and the payload in its original form when
coercion fails; coercion failure is never surfaced as an error, the
function being total. -/
theorem tip_height_coercion :
    (∀ (d : Payload) (n : ℤ), pyInt d = some n → get_tip_height d = .int n) ∧
    (∀ d : Payload, pyInt d = none → get_tip_height d = .raw d) ∧
    get_tip_height (.text ("800000")) = .int 800000 := by
  refine ⟨?_, ?_, rfl⟩
  · intro d n h
    simp [get_tip_height, h]
  · intro d h
    simp [get_tip_height, h]

/-- Witness for `tip_height_coercion`: the text `"800000"` is coerced to
the integer 800000, and a JSON object payload is returned unchanged. -/
theorem tip_height_coercion_witness :
    get_tip_height (.text ("800000")) = .int 800000 ∧
    get_tip_height (.json (.obj [])) = .raw (.json (.obj [])) :=
  ⟨tip_height_coercion.1 (.text ("800000")) 800000 rfl,
   tip_height_coercion.2.1 (.json (.obj [])) rfl⟩

end BtcAdapter
